import Mathlib

/-!
Verification of the FIDL JSON IR decoder (src/src/main.rs) against its
natural-language specification.

The Rust program defines a data model (serde Deserialize structs inside
module ir) and a function read_ir that opens a file and deserializes it
with serde_json, panicking via expect on an unobtainable file or on a
JSON decode error.  We shallowly embed:
  - the parsed JSON document tree (Json),
  - the serde-derived decoding of every struct and enum of the model,
    following serde semantics for the attributes used in the source
    (tag = "kind", rename_all = "lowercase", Option fields, unknown
    fields ignored),
  - read_ir as a function from an abstract file input to either a
    decoded Library or a panic outcome,
  - the query operations resolve and walk_type, which the specification
    describes but the source file does not implement; those are
    modelled from the spec and marked as such.
-/

namespace ir

/-- Parsed JSON document tree, the input shape serde_json deserializes
from.  Numbers are modelled as integers: every numeric field of this
schema is an unsigned machine integer, and a non-integral JSON number
fails to decode to any of them. -/
inductive Json where
  | null : Json
  | bool (b : Bool) : Json
  | num (n : Int) : Json
  | str (s : String) : Json
  | arr (elems : List Json) : Json
  | obj (fields : List (String × Json)) : Json

/-- Lookup of a field by name in a JSON object, first occurrence. -/
def getField : List (String × Json) → String → Option Json
  | [], _ => none
  | (k, v) :: rest, name => if k = name then some v else getField rest name

/-- Decode errors are reported as messages; read_ir collapses them all
into one panic, so only their existence matters to the claims. -/
abbrev DecodeError := String

/-- Closed handle-subtype enumeration from the source. -/
inductive HandleSubtype where
  | Handle | Process | Thread | VMO | Channel | Event | Port | Interrupt
  | DebugLog | Socket | Resource | EventPair | Job | VMAR | FIFO | Guest
  | Timer | BTI | Profile
deriving DecidableEq

/-- Closed declaration-kind enumeration from the source. -/
inductive DeclarationType where
  | Const | Bits | Enum | Interface | Struct | Table | Union | XUnion
deriving DecidableEq

/-- Recursive tagged type variant from the source (Rust enum Type).
Field names follow the source; u32 fields are Nat values below 2^32,
checked at decode time.  The String constructor is declared last so
that the Lean type String stays visible in the other constructors. -/
inductive Type' where
  | Array (element_type : Type') (element_count : Nat) : Type'
  | Vector (element_type : Type') (nullable : Bool)
      (maybe_element_count : Option Nat) : Type'
  | Handle (subtype : HandleSubtype) (nullable : Bool) : Type'
  | Request (subtype : String) (nullable : Bool) : Type'
  | Primitive (subtype : String) : Type'
  | Identifier (identifier : String) (nullable : Bool) : Type'
  | String (nullable : Bool) (maybe_element_count : Option Nat) : Type'
deriving DecidableEq

/-- Tagged literal variant from the source (Rust enum Literal).  The
String constructor is declared last for the same scoping reason. -/
inductive Literal where
  | Numeric (value : String) : Literal
  | True : Literal
  | False : Literal
  | Default : Literal
  | String (value : String) : Literal
deriving DecidableEq

/-- Tagged constant variant from the source (Rust enum Constant); the
Literal constructor payload is written with an explicit namespace to
refer to the inductive above. -/
inductive Constant where
  | Identifier (identifier : String) : Constant
  | Literal (literal : ir.Literal) : Constant
deriving DecidableEq

structure Attribute where
  name : String
  value : String
deriving DecidableEq

structure Const where
  name : String
  type : Type'
  value : Constant
  maybe_attributes : Option (List Attribute)
deriving DecidableEq

structure EnumMember where
  name : String
  value : Constant
  maybe_attributes : Option (List Attribute)
deriving DecidableEq

structure Enum where
  name : String
  type : String
  members : List EnumMember
  maybe_attributes : Option (List Attribute)
deriving DecidableEq

structure StructMember where
  name : String
  maybe_attributes : Option (List Attribute)
  type : Type'
  size : Nat
  max_out_of_line : Nat
  alignment : Nat
  offset : Nat
  maybe_default_value : Option Constant
deriving DecidableEq

structure ProtocolMethod where
  name : String
  maybe_attributes : Option (List Attribute)
  ordinal : Nat
  generated_ordinal : Nat
  has_request : Bool
  maybe_request : Option (List StructMember)
  maybe_request_size : Option Nat
  maybe_request_alignment : Option Nat
  has_response : Bool
  maybe_response : Option (List StructMember)
  maybe_response_size : Option Nat
  maybe_response_alignment : Option Nat
deriving DecidableEq

structure Protocol where
  name : String
  maybe_attributes : Option (List Attribute)
  methods : List ProtocolMethod
deriving DecidableEq

structure Struct where
  name : String
  maybe_attributes : Option (List Attribute)
  members : List StructMember
  size : Nat
  max_out_of_line : Nat
  max_handles : Option Nat
  anonymous : Option Bool
deriving DecidableEq

structure TableMember where
  reserved : Bool
  ordinal : Nat
  name : Option String
  type : Option Type'
  size : Option Nat
  max_out_of_line : Option Nat
  alignment : Option Nat
  offset : Option Nat
  maybe_default_value : Option Constant
deriving DecidableEq

structure Table where
  name : String
  maybe_attributes : Option (List Attribute)
  members : List TableMember
  size : Nat
  max_out_of_line : Nat
deriving DecidableEq

structure UnionMember where
  name : String
  maybe_attributes : Option (List Attribute)
  type : Type'
  size : Nat
  max_out_of_line : Nat
  alignment : Nat
  offset : Nat
deriving DecidableEq

structure Union where
  name : String
  maybe_attributes : Option (List Attribute)
  members : List UnionMember
  size : Nat
  alignment : Nat
  max_out_of_line : Nat
  max_handles : Option Nat
deriving DecidableEq

structure Declaration where
  name : String
  maybe_attributes : Option (List Attribute)
deriving DecidableEq

/-- HashMap from String to DeclarationType, modelled as an association
list built by last-wins insertion, matching serde insertion into a
HashMap from the document object in field order. -/
structure LibraryDependency where
  name : String
  declarations : List (String × DeclarationType)
deriving DecidableEq

structure Library where
  version : String
  name : String
  const_declarations : List Const
  enum_declarations : List Enum
  interface_declarations : List Protocol
  struct_declarations : List Struct
  table_declarations : List Table
  union_declarations : List Union
  xunion_declarations : List Declaration
  declaration_order : List String
  declarations : List (String × DeclarationType)
  library_dependencies : List LibraryDependency
deriving DecidableEq

/-! Serde-derived decoding, embedded.  Every struct decoder requires its
non-Option fields, treats Option fields as absent-or-null means none,
ignores unknown fields (the source does not set deny_unknown_fields),
and fails on a non-object input.  Every enum with tag = "kind" reads the
lower-cased tag from the field named kind; plain enums decode from a
lower-cased string token. -/

def decodeBool : Json → Except DecodeError Bool
  | .bool b => .ok b
  | _ => .error "invalid type: expected a boolean"

def decodeString : Json → Except DecodeError String
  | .str s => .ok s
  | _ => .error "invalid type: expected a string"

def decodeU32 : Json → Except DecodeError Nat
  | .num n =>
    if 0 ≤ n ∧ n < 4294967296 then .ok n.toNat
    else .error "invalid value: integer out of range for u32"
  | _ => .error "invalid type: expected u32"

def decodeU64 : Json → Except DecodeError Nat
  | .num n =>
    if 0 ≤ n ∧ n < 18446744073709551616 then .ok n.toNat
    else .error "invalid value: integer out of range for u64"
  | _ => .error "invalid type: expected u64"

/-- Required field: missing means a MissingField-style error. -/
def reqField (fields : List (String × Json)) (name : String)
    (d : Json → Except DecodeError α) : Except DecodeError α :=
  match getField fields name with
  | none => .error ("missing field " ++ name)
  | some j => d j

/-- Optional field: absent or null decodes to none. -/
def optField (fields : List (String × Json)) (name : String)
    (d : Json → Except DecodeError α) : Except DecodeError (Option α) :=
  match getField fields name with
  | none => .ok none
  | some .null => .ok none
  | some j => (d j).map some

def decodeList (d : Json → Except DecodeError α) :
    Json → Except DecodeError (List α)
  | .arr elems => elems.mapM d
  | _ => .error "invalid type: expected an array"

def decodeHandleSubtype : Json → Except DecodeError HandleSubtype
  | .str "handle" => .ok .Handle
  | .str "process" => .ok .Process
  | .str "thread" => .ok .Thread
  | .str "vmo" => .ok .VMO
  | .str "channel" => .ok .Channel
  | .str "event" => .ok .Event
  | .str "port" => .ok .Port
  | .str "interrupt" => .ok .Interrupt
  | .str "debuglog" => .ok .DebugLog
  | .str "socket" => .ok .Socket
  | .str "resource" => .ok .Resource
  | .str "eventpair" => .ok .EventPair
  | .str "job" => .ok .Job
  | .str "vmar" => .ok .VMAR
  | .str "fifo" => .ok .FIFO
  | .str "guest" => .ok .Guest
  | .str "timer" => .ok .Timer
  | .str "bti" => .ok .BTI
  | .str "profile" => .ok .Profile
  | .str s => .error ("unknown variant " ++ s)
  | _ => .error "invalid type: expected a string"

def decodeDeclarationType : Json → Except DecodeError DeclarationType
  | .str "const" => .ok .Const
  | .str "bits" => .ok .Bits
  | .str "enum" => .ok .Enum
  | .str "interface" => .ok .Interface
  | .str "struct" => .ok .Struct
  | .str "table" => .ok .Table
  | .str "union" => .ok .Union
  | .str "xunion" => .ok .XUnion
  | .str s => .error ("unknown variant " ++ s)
  | _ => .error "invalid type: expected a string"

/-- Field values found by getField are structurally smaller than the
containing object, justifying the recursion in decodeType. -/
theorem sizeOf_getField {fields : List (String × Json)} {name : String}
    {j : Json} (h : getField fields name = some j) :
    sizeOf j < sizeOf (Json.obj fields) := by
  induction fields with
  | nil => simp [getField] at h
  | cons p rest ih =>
    obtain ⟨k, v⟩ := p
    simp only [getField] at h
    by_cases hk : k = name
    · rw [if_pos hk] at h
      cases h
      simp
      omega
    · rw [if_neg hk] at h
      have := ih h
      simp at this ⊢
      omega

/-- Decoder for the recursive tagged enum Type, dispatching on the
lower-cased kind field exactly as the serde derive does for the source
variants array, vector, string, handle, request, primitive and
identifier. -/
def decodeType (j : Json) : Except DecodeError Type' :=
  match j with
  | .obj fields =>
    match getField fields "kind" with
    | none => .error "missing field kind"
    | some (.str tag) =>
      if tag = "array" then
        match h : getField fields "element_type" with
        | none => .error "missing field element_type"
        | some jet => do
          let et ← decodeType jet
          let ec ← reqField fields "element_count" decodeU32
          pure (.Array et ec)
      else if tag = "vector" then
        match h : getField fields "element_type" with
        | none => .error "missing field element_type"
        | some jet => do
          let et ← decodeType jet
          let nb ← reqField fields "nullable" decodeBool
          let mec ← optField fields "maybe_element_count" decodeU32
          pure (.Vector et nb mec)
      else if tag = "string" then do
        let nb ← reqField fields "nullable" decodeBool
        let mec ← optField fields "maybe_element_count" decodeU32
        pure (.String nb mec)
      else if tag = "handle" then do
        let st ← reqField fields "subtype" decodeHandleSubtype
        let nb ← reqField fields "nullable" decodeBool
        pure (.Handle st nb)
      else if tag = "request" then do
        let st ← reqField fields "subtype" decodeString
        let nb ← reqField fields "nullable" decodeBool
        pure (.Request st nb)
      else if tag = "primitive" then do
        let st ← reqField fields "subtype" decodeString
        pure (.Primitive st)
      else if tag = "identifier" then do
        let id ← reqField fields "identifier" decodeString
        let nb ← reqField fields "nullable" decodeBool
        pure (.Identifier id nb)
      else .error ("unknown variant " ++ tag)
    | some _ => .error "invalid type: tag kind is not a string"
  | _ => .error "invalid type: expected a map"
termination_by sizeOf j
decreasing_by all_goals { simp_wf; have hlt := sizeOf_getField h; simp at hlt; omega }

def decodeLiteral (j : Json) : Except DecodeError Literal :=
  match j with
  | .obj fields =>
    match getField fields "kind" with
    | none => .error "missing field kind"
    | some (.str tag) =>
      if tag = "string" then do
        let v ← reqField fields "value" decodeString
        pure (.String v)
      else if tag = "numeric" then do
        let v ← reqField fields "value" decodeString
        pure (.Numeric v)
      else if tag = "true" then pure .True
      else if tag = "false" then pure .False
      else if tag = "default" then pure .Default
      else .error ("unknown variant " ++ tag)
    | some _ => .error "invalid type: tag kind is not a string"
  | _ => .error "invalid type: expected a map"

def decodeConstant (j : Json) : Except DecodeError Constant :=
  match j with
  | .obj fields =>
    match getField fields "kind" with
    | none => .error "missing field kind"
    | some (.str tag) =>
      if tag = "identifier" then do
        let id ← reqField fields "identifier" decodeString
        pure (.Identifier id)
      else if tag = "literal" then do
        let lit ← reqField fields "literal" decodeLiteral
        pure (.Literal lit)
      else .error ("unknown variant " ++ tag)
    | some _ => .error "invalid type: tag kind is not a string"
  | _ => .error "invalid type: expected a map"

def decodeAttribute (j : Json) : Except DecodeError Attribute :=
  match j with
  | .obj fields => do
    let name ← reqField fields "name" decodeString
    let value ← reqField fields "value" decodeString
    pure { name := name, value := value }
  | _ => .error "invalid type: expected a map"

def decodeConst (j : Json) : Except DecodeError Const :=
  match j with
  | .obj fields => do
    let name ← reqField fields "name" decodeString
    let ty ← reqField fields "type" decodeType
    let value ← reqField fields "value" decodeConstant
    let attrs ← optField fields "maybe_attributes" (decodeList decodeAttribute)
    pure { name := name, type := ty, value := value, maybe_attributes := attrs }
  | _ => .error "invalid type: expected a map"

def decodeEnumMember (j : Json) : Except DecodeError EnumMember :=
  match j with
  | .obj fields => do
    let name ← reqField fields "name" decodeString
    let value ← reqField fields "value" decodeConstant
    let attrs ← optField fields "maybe_attributes" (decodeList decodeAttribute)
    pure { name := name, value := value, maybe_attributes := attrs }
  | _ => .error "invalid type: expected a map"

def decodeEnum (j : Json) : Except DecodeError Enum :=
  match j with
  | .obj fields => do
    let name ← reqField fields "name" decodeString
    let ty ← reqField fields "type" decodeString
    let members ← reqField fields "members" (decodeList decodeEnumMember)
    let attrs ← optField fields "maybe_attributes" (decodeList decodeAttribute)
    pure { name := name, type := ty, members := members, maybe_attributes := attrs }
  | _ => .error "invalid type: expected a map"

def decodeStructMember (j : Json) : Except DecodeError StructMember :=
  match j with
  | .obj fields => do
    let name ← reqField fields "name" decodeString
    let attrs ← optField fields "maybe_attributes" (decodeList decodeAttribute)
    let ty ← reqField fields "type" decodeType
    let size ← reqField fields "size" decodeU32
    let mool ← reqField fields "max_out_of_line" decodeU32
    let alignment ← reqField fields "alignment" decodeU32
    let offset ← reqField fields "offset" decodeU32
    let dflt ← optField fields "maybe_default_value" decodeConstant
    pure { name := name, maybe_attributes := attrs, type := ty, size := size,
           max_out_of_line := mool, alignment := alignment, offset := offset,
           maybe_default_value := dflt }
  | _ => .error "invalid type: expected a map"

def decodeProtocolMethod (j : Json) : Except DecodeError ProtocolMethod :=
  match j with
  | .obj fields => do
    let name ← reqField fields "name" decodeString
    let attrs ← optField fields "maybe_attributes" (decodeList decodeAttribute)
    let ordinal ← reqField fields "ordinal" decodeU64
    let gord ← reqField fields "generated_ordinal" decodeU64
    let hreq ← reqField fields "has_request" decodeBool
    let mreq ← optField fields "maybe_request" (decodeList decodeStructMember)
    let mreqs ← optField fields "maybe_request_size" decodeU32
    let mreqa ← optField fields "maybe_request_alignment" decodeU32
    let hresp ← reqField fields "has_response" decodeBool
    let mresp ← optField fields "maybe_response" (decodeList decodeStructMember)
    let mresps ← optField fields "maybe_response_size" decodeU32
    let mrespa ← optField fields "maybe_response_alignment" decodeU32
    pure { name := name, maybe_attributes := attrs, ordinal := ordinal,
           generated_ordinal := gord, has_request := hreq, maybe_request := mreq,
           maybe_request_size := mreqs, maybe_request_alignment := mreqa,
           has_response := hresp, maybe_response := mresp,
           maybe_response_size := mresps, maybe_response_alignment := mrespa }
  | _ => .error "invalid type: expected a map"

def decodeProtocol (j : Json) : Except DecodeError Protocol :=
  match j with
  | .obj fields => do
    let name ← reqField fields "name" decodeString
    let attrs ← optField fields "maybe_attributes" (decodeList decodeAttribute)
    let methods ← reqField fields "methods" (decodeList decodeProtocolMethod)
    pure { name := name, maybe_attributes := attrs, methods := methods }
  | _ => .error "invalid type: expected a map"

def decodeStruct (j : Json) : Except DecodeError Struct :=
  match j with
  | .obj fields => do
    let name ← reqField fields "name" decodeString
    let attrs ← optField fields "maybe_attributes" (decodeList decodeAttribute)
    let members ← reqField fields "members" (decodeList decodeStructMember)
    let size ← reqField fields "size" decodeU32
    let mool ← reqField fields "max_out_of_line" decodeU32
    let mh ← optField fields "max_handles" decodeU32
    let anon ← optField fields "anonymous" decodeBool
    pure { name := name, maybe_attributes := attrs, members := members,
           size := size, max_out_of_line := mool, max_handles := mh,
           anonymous := anon }
  | _ => .error "invalid type: expected a map"

def decodeTableMember (j : Json) : Except DecodeError TableMember :=
  match j with
  | .obj fields => do
    let reserved ← reqField fields "reserved" decodeBool
    let ordinal ← reqField fields "ordinal" decodeU64
    let name ← optField fields "name" decodeString
    let ty ← optField fields "type" decodeType
    let size ← optField fields "size" decodeU32
    let mool ← optField fields "max_out_of_line" decodeU32
    let alignment ← optField fields "alignment" decodeU32
    let offset ← optField fields "offset" decodeU32
    let dflt ← optField fields "maybe_default_value" decodeConstant
    pure { reserved := reserved, ordinal := ordinal, name := name, type := ty,
           size := size, max_out_of_line := mool, alignment := alignment,
           offset := offset, maybe_default_value := dflt }
  | _ => .error "invalid type: expected a map"

def decodeTable (j : Json) : Except DecodeError Table :=
  match j with
  | .obj fields => do
    let name ← reqField fields "name" decodeString
    let attrs ← optField fields "maybe_attributes" (decodeList decodeAttribute)
    let members ← reqField fields "members" (decodeList decodeTableMember)
    let size ← reqField fields "size" decodeU32
    let mool ← reqField fields "max_out_of_line" decodeU32
    pure { name := name, maybe_attributes := attrs, members := members,
           size := size, max_out_of_line := mool }
  | _ => .error "invalid type: expected a map"

def decodeUnionMember (j : Json) : Except DecodeError UnionMember :=
  match j with
  | .obj fields => do
    let name ← reqField fields "name" decodeString
    let attrs ← optField fields "maybe_attributes" (decodeList decodeAttribute)
    let ty ← reqField fields "type" decodeType
    let size ← reqField fields "size" decodeU32
    let mool ← reqField fields "max_out_of_line" decodeU32
    let alignment ← reqField fields "alignment" decodeU32
    let offset ← reqField fields "offset" decodeU32
    pure { name := name, maybe_attributes := attrs, type := ty, size := size,
           max_out_of_line := mool, alignment := alignment, offset := offset }
  | _ => .error "invalid type: expected a map"

def decodeUnion (j : Json) : Except DecodeError Union :=
  match j with
  | .obj fields => do
    let name ← reqField fields "name" decodeString
    let attrs ← optField fields "maybe_attributes" (decodeList decodeAttribute)
    let members ← reqField fields "members" (decodeList decodeUnionMember)
    let size ← reqField fields "size" decodeU32
    let alignment ← reqField fields "alignment" decodeU32
    let mool ← reqField fields "max_out_of_line" decodeU32
    let mh ← optField fields "max_handles" decodeU32
    pure { name := name, maybe_attributes := attrs, members := members,
           size := size, alignment := alignment, max_out_of_line := mool,
           max_handles := mh }
  | _ => .error "invalid type: expected a map"

def decodeDeclaration (j : Json) : Except DecodeError Declaration :=
  match j with
  | .obj fields => do
    let name ← reqField fields "name" decodeString
    let attrs ← optField fields "maybe_attributes" (decodeList decodeAttribute)
    pure { name := name, maybe_attributes := attrs }
  | _ => .error "invalid type: expected a map"

/-- Last-wins insertion into the association list modelling a HashMap. -/
def insertKind (m : List (String × DeclarationType)) (k : String)
    (v : DeclarationType) : List (String × DeclarationType) :=
  match m with
  | [] => [(k, v)]
  | (k2, v2) :: rest =>
    if k2 = k then (k, v) :: rest else (k2, v2) :: insertKind rest k v

def decodeDeclMapFields : List (String × Json) →
    List (String × DeclarationType) →
    Except DecodeError (List (String × DeclarationType))
  | [], acc => .ok acc
  | (k, jv) :: rest, acc => do
    let dt ← decodeDeclarationType jv
    decodeDeclMapFields rest (insertKind acc k dt)

/-- Decoder for a HashMap from String to DeclarationType: every value in
the object must be a declaration-kind token. -/
def decodeDeclMap : Json → Except DecodeError (List (String × DeclarationType))
  | .obj fields => decodeDeclMapFields fields []
  | _ => .error "invalid type: expected a map"

def decodeLibraryDependency (j : Json) : Except DecodeError LibraryDependency :=
  match j with
  | .obj fields => do
    let name ← reqField fields "name" decodeString
    let decls ← reqField fields "declarations" decodeDeclMap
    pure { name := name, declarations := decls }
  | _ => .error "invalid type: expected a map"

/-- Decoder for the whole library document, the entry point serde_json
uses for struct Library in read_ir. -/
def decodeLibrary (j : Json) : Except DecodeError Library :=
  match j with
  | .obj fields => do
    let version ← reqField fields "version" decodeString
    let name ← reqField fields "name" decodeString
    let cds ← reqField fields "const_declarations" (decodeList decodeConst)
    let eds ← reqField fields "enum_declarations" (decodeList decodeEnum)
    let ids ← reqField fields "interface_declarations" (decodeList decodeProtocol)
    let sds ← reqField fields "struct_declarations" (decodeList decodeStruct)
    let tds ← reqField fields "table_declarations" (decodeList decodeTable)
    let uds ← reqField fields "union_declarations" (decodeList decodeUnion)
    let xds ← reqField fields "xunion_declarations" (decodeList decodeDeclaration)
    let ord ← reqField fields "declaration_order" (decodeList decodeString)
    let decls ← reqField fields "declarations" decodeDeclMap
    let deps ← reqField fields "library_dependencies"
        (decodeList decodeLibraryDependency)
    pure { version := version, name := name, const_declarations := cds,
           enum_declarations := eds, interface_declarations := ids,
           struct_declarations := sds, table_declarations := tds,
           union_declarations := uds, xunion_declarations := xds,
           declaration_order := ord, declarations := decls,
           library_dependencies := deps }
  | _ => .error "invalid type: expected a map"

/-- Abstract input to read_ir: the file may be unobtainable, hold bytes
that are not JSON, or parse to a document tree. -/
inductive FileInput where
  | missing : FileInput
  | malformed : FileInput
  | parsed (j : Json) : FileInput

/-- Outcome of read_ir: the source unwraps both the file open and the
serde decode with expect, so every failure is a panic, never a value. -/
inductive ReadIrResult where
  | panic (msg : String) : ReadIrResult
  | ok (lib : Library) : ReadIrResult

def ReadIrResult.isPanic : ReadIrResult → Bool
  | .panic _ => true
  | .ok _ => false

/-- Embedding of read_ir from the source: File::open(..).expect("file
not found") followed by serde_json::from_reader(..).expect("json
error"). -/
def read_ir : FileInput → ReadIrResult
  | .missing => .panic "file not found"
  | .malformed => .panic "json error"
  | .parsed j =>
    match decodeLibrary j with
    | .error _ => .panic "json error"
    | .ok lib => .ok lib

/-! Query interface.  The specification describes resolve and walk_type
as operations of the decoded Library; the source file contains only the
data model and read_ir, so these are modelled from the spec. -/

/-- Sum of the full local declaration shapes, what a local resolve hit
carries. -/
inductive LocalDeclaration where
  | constDecl (c : Const) : LocalDeclaration
  | enumDecl (e : Enum) : LocalDeclaration
  | protocolDecl (p : Protocol) : LocalDeclaration
  | structDecl (s : Struct) : LocalDeclaration
  | tableDecl (t : Table) : LocalDeclaration
  | unionDecl (u : Union) : LocalDeclaration
  | xunionDecl (d : Declaration) : LocalDeclaration
deriving DecidableEq

/-- Result of resolve: a local hit carries the full declaration, a
dependency hit carries the declaration kind only, and an unknown name
is the typed NotFound outcome. -/
inductive ResolveResult where
  | localRef (decl : LocalDeclaration) : ResolveResult
  | foreignRef (kind : DeclarationType) : ResolveResult
  | notFound : ResolveResult
deriving DecidableEq

/-- First value bound to a key in the declaration-kind map. -/
def lookupKind : List (String × DeclarationType) → String → Option DeclarationType
  | [], _ => none
  | (k, v) :: rest, name => if k = name then some v else lookupKind rest name

/-- Modelled from the spec: the local lookup half of resolve, searching
the kind-specific declaration lists of the library itself for a
declaration with the given qualified name; returns the full
declaration.  The source file does not implement resolve. -/
def findLocal (lib : Library) (name : String) : Option LocalDeclaration :=
  match lib.const_declarations.find? (fun c => c.name == name) with
  | some c => some (.constDecl c)
  | none =>
  match lib.enum_declarations.find? (fun e => e.name == name) with
  | some e => some (.enumDecl e)
  | none =>
  match lib.interface_declarations.find? (fun p => p.name == name) with
  | some p => some (.protocolDecl p)
  | none =>
  match lib.struct_declarations.find? (fun s => s.name == name) with
  | some s => some (.structDecl s)
  | none =>
  match lib.table_declarations.find? (fun t => t.name == name) with
  | some t => some (.tableDecl t)
  | none =>
  match lib.union_declarations.find? (fun u => u.name == name) with
  | some u => some (.unionDecl u)
  | none =>
  match lib.xunion_declarations.find? (fun d => d.name == name) with
  | some d => some (.xunionDecl d)
  | none => none

/-- Modelled from the spec: the dependency half of resolve, trying each
dependency declaration-kind map in dependency-list order and returning
the kind only.  The source file does not implement resolve. -/
def resolveDeps : List LibraryDependency → String → ResolveResult
  | [], _ => .notFound
  | dep :: rest, name =>
    match lookupKind dep.declarations name with
    | some k => .foreignRef k
    | none => resolveDeps rest name

/-- Modelled from the spec: resolve looks a qualified name up first in
the declarations of the library itself, then in each dependency, in list order;
a name found nowhere is NotFound.  The source file does not implement
resolve. -/
def resolve (lib : Library) (name : String) : ResolveResult :=
  match findLocal lib name with
  | some d => .localRef d
  | none => resolveDeps lib.library_dependencies name

/-- Modelled from the spec: the child types one walk step descends
into. -/
def typeChildren : Type' → List Type'
  | .Array et _ => [et]
  | .Vector et _ _ => [et]
  | _ => []

/-- Modelled from the spec: depth-first walk emitting every nested type
node paired with its enclosing type, the root paired with none.  The
source file does not implement walk_type. -/
def walk_type_from : Type' → Option Type' → List (Type' × Option Type')
  | .Array et c, parent =>
    (.Array et c, parent) :: walk_type_from et (some (.Array et c))
  | .Vector et nb mec, parent =>
    (.Vector et nb mec, parent) :: walk_type_from et (some (.Vector et nb mec))
  | t, parent => [(t, parent)]

/-- Modelled from the spec: walk_type starts the walk at the root with
no enclosing type. -/
def walk_type (t : Type') : List (Type' × Option Type') :=
  walk_type_from t none

/-! Spec-side notions used to state the claims. -/

/-- Spec predicate: the multiset of member ordinals of a table is
exactly 1..N where N counts all members, reserved included. -/
def specTableOrdinalsOk (t : Table) : Bool :=
  (t.members.map TableMember.ordinal).isPerm (List.range' 1 t.members.length)

/-- Total count of locally declared names across all kind arrays. -/
def Library.localDeclCount (lib : Library) : Nat :=
  lib.const_declarations.length + lib.enum_declarations.length +
  lib.interface_declarations.length + lib.struct_declarations.length +
  lib.table_declarations.length + lib.union_declarations.length +
  lib.xunion_declarations.length

/-- Closed tag sets of the tagged enums and the token sets of the plain
enums, lower-cased per the serde rename_all attribute. -/
def typeKinds : List String :=
  ["array", "vector", "string", "handle", "request", "primitive", "identifier"]

def literalKinds : List String := ["string", "numeric", "true", "false", "default"]

def constantKinds : List String := ["identifier", "literal"]

def handleSubtypeTokens : List String :=
  ["handle", "process", "thread", "vmo", "channel", "event", "port",
   "interrupt", "debuglog", "socket", "resource", "eventpair", "job",
   "vmar", "fifo", "guest", "timer", "bti", "profile"]

def declarationTypeTokens : List String :=
  ["const", "bits", "enum", "interface", "struct", "table", "union", "xunion"]

/-! Schema field-name sets, for stating that unknown fields are
ignored. -/

def librarySchema : List String :=
  ["version", "name", "const_declarations", "enum_declarations",
   "interface_declarations", "struct_declarations", "table_declarations",
   "union_declarations", "xunion_declarations", "declaration_order",
   "declarations", "library_dependencies"]

def tableMemberSchema : List String :=
  ["reserved", "ordinal", "name", "type", "size", "max_out_of_line",
   "alignment", "offset", "maybe_default_value"]

def typeSchema : List String :=
  ["kind", "element_type", "element_count", "nullable",
   "maybe_element_count", "subtype", "identifier"]

def literalSchema : List String := ["kind", "value"]

def constantSchema : List String := ["kind", "identifier", "literal"]

def attributeSchema : List String := ["name", "value"]

def constSchema : List String := ["name", "type", "value", "maybe_attributes"]

def enumMemberSchema : List String := ["name", "value", "maybe_attributes"]

def enumSchema : List String := ["name", "type", "members", "maybe_attributes"]

def structMemberSchema : List String :=
  ["name", "maybe_attributes", "type", "size", "max_out_of_line",
   "alignment", "offset", "maybe_default_value"]

def protocolMethodSchema : List String :=
  ["name", "maybe_attributes", "ordinal", "generated_ordinal", "has_request",
   "maybe_request", "maybe_request_size", "maybe_request_alignment",
   "has_response", "maybe_response", "maybe_response_size",
   "maybe_response_alignment"]

def protocolSchema : List String := ["name", "maybe_attributes", "methods"]

def structSchema : List String :=
  ["name", "maybe_attributes", "members", "size", "max_out_of_line",
   "max_handles", "anonymous"]

def tableSchema : List String :=
  ["name", "maybe_attributes", "members", "size", "max_out_of_line"]

def unionMemberSchema : List String :=
  ["name", "maybe_attributes", "type", "size", "max_out_of_line",
   "alignment", "offset"]

def unionSchema : List String :=
  ["name", "maybe_attributes", "members", "size", "alignment",
   "max_out_of_line", "max_handles"]

def declarationSchema : List String := ["name", "maybe_attributes"]

def libraryDependencySchema : List String := ["name", "declarations"]

/-- Restriction of a document object to the fields a schema names,
dropping every extra field. -/
def keepKnown (schema : List String) : List (String × Json) →
    List (String × Json)
  | [] => []
  | (k, v) :: rest =>
    if schema.contains k then (k, v) :: keepKnown schema rest
    else keepKnown schema rest

/-- Replacement of the first binding of a field name by a new value,
appending when the name is absent; used to state that a field is
decoded independently of the rest of the document. -/
def setField : List (String × Json) → String → Json → List (String × Json)
  | [], name, v => [(name, v)]
  | (k, w) :: rest, name, v =>
    if k = name then (name, v) :: rest else (k, w) :: setField rest name v

/-! Concrete documents used by the scenario claims, the counterexamples
and the witnesses. -/

/-- Field list of a library document with the given interface, table
and xunion declaration arrays and declaration order, every other field
minimal. -/
def mkLibFields (ids tds xds : List Json) (ord : List String) :
    List (String × Json) :=
  [("version", .str "0.0.1"), ("name", .str "test"),
   ("const_declarations", .arr []), ("enum_declarations", .arr []),
   ("interface_declarations", .arr ids), ("struct_declarations", .arr []),
   ("table_declarations", .arr tds), ("union_declarations", .arr []),
   ("xunion_declarations", .arr xds),
   ("declaration_order", .arr (ord.map .str)),
   ("declarations", .obj []), ("library_dependencies", .arr [])]

/-- Library document built from mkLibFields. -/
def mkLibDoc (ids tds xds : List Json) (ord : List String) : Json :=
  .obj (mkLibFields ids tds xds ord)

/-- Library value mkLibDoc decodes to. -/
def mkLib (ids : List Protocol) (tds : List Table) (xds : List Declaration)
    (ord : List String) : Library :=
  { version := "0.0.1", name := "test", const_declarations := [],
    enum_declarations := [], interface_declarations := ids,
    struct_declarations := [], table_declarations := tds,
    union_declarations := [], xunion_declarations := xds,
    declaration_order := ord, declarations := [],
    library_dependencies := [] }

/-- Table document of the spec scenario: first member present with a
primitive uint8 type, second member reserved with ordinal 2 only. -/
def scenarioTableDoc : Json :=
  .obj [("name", .str "test/T"),
        ("members", .arr
          [.obj [("reserved", .bool false), ("ordinal", .num 1),
                 ("name", .str "a"),
                 ("type", .obj [("kind", .str "primitive"),
                                ("subtype", .str "uint8")]),
                 ("size", .num 1), ("max_out_of_line", .num 0),
                 ("alignment", .num 1), ("offset", .num 0)],
           .obj [("reserved", .bool true), ("ordinal", .num 2)]]),
        ("size", .num 16), ("max_out_of_line", .num 0)]

def scenarioMember1 : TableMember :=
  { reserved := false, ordinal := 1, name := some "a",
    type := some (.Primitive "uint8"), size := some 1,
    max_out_of_line := some 0, alignment := some 1, offset := some 0,
    maybe_default_value := none }

def scenarioMember2 : TableMember :=
  { reserved := true, ordinal := 2, name := none, type := none,
    size := none, max_out_of_line := none, alignment := none,
    offset := none, maybe_default_value := none }

def scenarioTable : Table :=
  { name := "test/T", maybe_attributes := none,
    members := [scenarioMember1, scenarioMember2], size := 16,
    max_out_of_line := 0 }

/-- Table document whose two members are reserved and both carry
ordinal 0: zero and duplicated ordinals. -/
def dupOrdinalTableDoc : Json :=
  .obj [("name", .str "test/T"),
        ("members", .arr
          [.obj [("reserved", .bool true), ("ordinal", .num 0)],
           .obj [("reserved", .bool true), ("ordinal", .num 0)]]),
        ("size", .num 16), ("max_out_of_line", .num 0)]

def dupOrdinalMember : TableMember :=
  { reserved := true, ordinal := 0, name := none, type := none,
    size := none, max_out_of_line := none, alignment := none,
    offset := none, maybe_default_value := none }

def dupOrdinalTable : Table :=
  { name := "test/T", maybe_attributes := none,
    members := [dupOrdinalMember, dupOrdinalMember], size := 16,
    max_out_of_line := 0 }

/-- Protocol document with one method that has neither request nor
response. -/
def emptyMethodProtocolDoc : Json :=
  .obj [("name", .str "test/P"),
        ("methods", .arr
          [.obj [("name", .str "M"), ("ordinal", .num 1),
                 ("generated_ordinal", .num 1),
                 ("has_request", .bool false),
                 ("has_response", .bool false)]])]

def emptyMethod : ProtocolMethod :=
  { name := "M", maybe_attributes := none, ordinal := 1,
    generated_ordinal := 1, has_request := false, maybe_request := none,
    maybe_request_size := none, maybe_request_alignment := none,
    has_response := false, maybe_response := none,
    maybe_response_size := none, maybe_response_alignment := none }

def emptyMethodProtocol : Protocol :=
  { name := "test/P", maybe_attributes := none, methods := [emptyMethod] }

/-- Field list of a method document parameterized by the two flags,
used to show every flag combination is accepted. -/
def methodFieldsFlags (hreq hresp : Bool) : List (String × Json) :=
  [("name", .str "M"), ("ordinal", .num 1),
   ("generated_ordinal", .num 1), ("has_request", .bool hreq),
   ("has_response", .bool hresp)]

/-- Method document built from methodFieldsFlags. -/
def methodDocFlags (hreq hresp : Bool) : Json := .obj (methodFieldsFlags hreq hresp)

def methodFlags (hreq hresp : Bool) : ProtocolMethod :=
  { name := "M", maybe_attributes := none, ordinal := 1,
    generated_ordinal := 1, has_request := hreq, maybe_request := none,
    maybe_request_size := none, maybe_request_alignment := none,
    has_response := hresp, maybe_response := none,
    maybe_response_size := none, maybe_response_alignment := none }

/-- Xunion declaration document with a name only, the cheapest local
declaration shape. -/
def xunionDoc : Json := .obj [("name", .str "test/X")]

def xunionDecl : Declaration := { name := "test/X", maybe_attributes := none }

/-- Library value with no local declarations and one dependency that
declares other.lib/Foo as a table, for the resolve claims. -/
def depOnlyLib : Library :=
  { version := "0.0.1", name := "test", const_declarations := [],
    enum_declarations := [], interface_declarations := [],
    struct_declarations := [], table_declarations := [],
    union_declarations := [], xunion_declarations := [],
    declaration_order := [], declarations := [],
    library_dependencies :=
      [{ name := "other.lib",
         declarations := [("other.lib/Foo", .Table)] }] }

/-! Supporting lemmas. -/

theorem mapM_loop_decodeString (ss acc : List String) :
    List.mapM.loop decodeString (ss.map Json.str) acc = .ok (acc.reverse ++ ss) := by
  induction ss generalizing acc with
  | nil => simp [List.mapM.loop, pure, Except.pure]
  | cons s rest ih =>
    simp [List.mapM.loop, decodeString, ih, Except.instMonad, Except.bind]

theorem mapM_decodeString (ss : List String) :
    (ss.map Json.str).mapM decodeString = .ok ss := by
  simp [List.mapM, mapM_loop_decodeString]

/-- Decoding the minimal library document succeeds for every
declaration_order array, showing the field is passed through without
validation. -/
theorem decodeLibrary_mkLibDoc_empty (ss : List String) :
    decodeLibrary (mkLibDoc [] [] [] ss) = .ok (mkLib [] [] [] ss) := by
  simp [mkLibDoc, mkLib, decodeLibrary, getField, reqField, decodeString,
        decodeList, decodeDeclMap, decodeDeclMapFields, mapM_decodeString,
        List.mapM, List.mapM.loop, Except.instMonad, Except.bind, Except.map,
        Except.pure, mapM_loop_decodeString]

theorem getField_keepKnown (schema : List String) (name : String)
    (h : schema.contains name = true) (fields : List (String × Json)) :
    getField (keepKnown schema fields) name = getField fields name := by
  induction fields with
  | nil => rfl
  | cons p rest ih =>
    obtain ⟨k, v⟩ := p
    by_cases hk : k = name
    · subst hk
      simp only [keepKnown]
      rw [if_pos h]
      simp [getField]
    · simp only [keepKnown]
      cases hc : schema.contains k with
      | true => simp [getField, hk, ih]
      | false => simp [getField, hk, ih]

theorem reqField_keepKnown (schema : List String) (name : String)
    (h : schema.contains name = true) (fields : List (String × Json))
    (d : Json → Except DecodeError α) :
    reqField (keepKnown schema fields) name d = reqField fields name d := by
  unfold reqField
  rw [getField_keepKnown schema name h]

theorem optField_keepKnown (schema : List String) (name : String)
    (h : schema.contains name = true) (fields : List (String × Json))
    (d : Json → Except DecodeError α) :
    optField (keepKnown schema fields) name d = optField fields name d := by
  unfold optField
  rw [getField_keepKnown schema name h]

theorem decodeLibrary_keepKnown (fields : List (String × Json)) :
    decodeLibrary (.obj (keepKnown librarySchema fields)) =
    decodeLibrary (.obj fields) := by
  simp only [decodeLibrary]
  rw [reqField_keepKnown librarySchema "version" (by decide),
      reqField_keepKnown librarySchema "name" (by decide),
      reqField_keepKnown librarySchema "const_declarations" (by decide),
      reqField_keepKnown librarySchema "enum_declarations" (by decide),
      reqField_keepKnown librarySchema "interface_declarations" (by decide),
      reqField_keepKnown librarySchema "struct_declarations" (by decide),
      reqField_keepKnown librarySchema "table_declarations" (by decide),
      reqField_keepKnown librarySchema "union_declarations" (by decide),
      reqField_keepKnown librarySchema "xunion_declarations" (by decide),
      reqField_keepKnown librarySchema "declaration_order" (by decide),
      reqField_keepKnown librarySchema "declarations" (by decide),
      reqField_keepKnown librarySchema "library_dependencies" (by decide)]

theorem decodeTableMember_keepKnown (fields : List (String × Json)) :
    decodeTableMember (.obj (keepKnown tableMemberSchema fields)) =
    decodeTableMember (.obj fields) := by
  simp only [decodeTableMember]
  rw [reqField_keepKnown tableMemberSchema "reserved" (by decide),
      reqField_keepKnown tableMemberSchema "ordinal" (by decide),
      optField_keepKnown tableMemberSchema "name" (by decide),
      optField_keepKnown tableMemberSchema "type" (by decide),
      optField_keepKnown tableMemberSchema "size" (by decide),
      optField_keepKnown tableMemberSchema "max_out_of_line" (by decide),
      optField_keepKnown tableMemberSchema "alignment" (by decide),
      optField_keepKnown tableMemberSchema "offset" (by decide),
      optField_keepKnown tableMemberSchema "maybe_default_value" (by decide)]

theorem decodeLiteral_keepKnown (fields : List (String × Json)) :
    decodeLiteral (.obj (keepKnown literalSchema fields)) =
    decodeLiteral (.obj fields) := by
  simp only [decodeLiteral]
  rw [getField_keepKnown literalSchema "kind" (by decide),
      reqField_keepKnown literalSchema "value" (by decide)]

theorem decodeConstant_keepKnown (fields : List (String × Json)) :
    decodeConstant (.obj (keepKnown constantSchema fields)) =
    decodeConstant (.obj fields) := by
  simp only [decodeConstant]
  rw [getField_keepKnown constantSchema "kind" (by decide),
      reqField_keepKnown constantSchema "identifier" (by decide),
      reqField_keepKnown constantSchema "literal" (by decide)]

theorem decodeType_keepKnown (fields : List (String × Json)) :
    decodeType (.obj (keepKnown typeSchema fields)) =
    decodeType (.obj fields) := by
  conv_lhs => rw [decodeType.eq_def]
  conv_rhs => rw [decodeType.eq_def]
  simp only []
  rw [getField_keepKnown typeSchema "kind" (by decide)]
  cases hk : getField fields "kind" with
  | none => rfl
  | some j =>
    cases j with
    | str tag =>
      simp only []
      by_cases h1 : tag = "array"
      · simp only [if_pos h1]
        rw [getField_keepKnown typeSchema "element_type" (by decide),
            reqField_keepKnown typeSchema "element_count" (by decide)]
      by_cases h2 : tag = "vector"
      · simp only [if_neg h1, if_pos h2]
        rw [getField_keepKnown typeSchema "element_type" (by decide),
            reqField_keepKnown typeSchema "nullable" (by decide),
            optField_keepKnown typeSchema "maybe_element_count" (by decide)]
      by_cases h3 : tag = "string"
      · simp only [if_neg h1, if_neg h2, if_pos h3]
        rw [reqField_keepKnown typeSchema "nullable" (by decide),
            optField_keepKnown typeSchema "maybe_element_count" (by decide)]
      by_cases h4 : tag = "handle"
      · simp only [if_neg h1, if_neg h2, if_neg h3, if_pos h4]
        rw [reqField_keepKnown typeSchema "subtype" (by decide),
            reqField_keepKnown typeSchema "nullable" (by decide)]
      by_cases h5 : tag = "request"
      · simp only [if_neg h1, if_neg h2, if_neg h3, if_neg h4, if_pos h5]
        rw [reqField_keepKnown typeSchema "subtype" (by decide),
            reqField_keepKnown typeSchema "nullable" (by decide)]
      by_cases h6 : tag = "primitive"
      · simp only [if_neg h1, if_neg h2, if_neg h3, if_neg h4, if_neg h5,
                   if_pos h6]
        rw [reqField_keepKnown typeSchema "subtype" (by decide)]
      by_cases h7 : tag = "identifier"
      · simp only [if_neg h1, if_neg h2, if_neg h3, if_neg h4, if_neg h5,
                   if_neg h6, if_pos h7]
        rw [reqField_keepKnown typeSchema "identifier" (by decide),
            reqField_keepKnown typeSchema "nullable" (by decide)]
      simp only [if_neg h1, if_neg h2, if_neg h3, if_neg h4, if_neg h5,
                 if_neg h6, if_neg h7]
    | null => rfl
    | bool b => rfl
    | num n => rfl
    | arr xs => rfl
    | obj fs => rfl

theorem decodeAttribute_keepKnown (fields : List (String × Json)) :
    decodeAttribute (.obj (keepKnown attributeSchema fields)) =
    decodeAttribute (.obj fields) := by
  simp only [decodeAttribute]
  rw [reqField_keepKnown attributeSchema "name" (by decide),
      reqField_keepKnown attributeSchema "value" (by decide)]

theorem decodeConst_keepKnown (fields : List (String × Json)) :
    decodeConst (.obj (keepKnown constSchema fields)) =
    decodeConst (.obj fields) := by
  simp only [decodeConst]
  rw [reqField_keepKnown constSchema "name" (by decide),
      reqField_keepKnown constSchema "type" (by decide),
      reqField_keepKnown constSchema "value" (by decide),
      optField_keepKnown constSchema "maybe_attributes" (by decide)]

theorem decodeEnumMember_keepKnown (fields : List (String × Json)) :
    decodeEnumMember (.obj (keepKnown enumMemberSchema fields)) =
    decodeEnumMember (.obj fields) := by
  simp only [decodeEnumMember]
  rw [reqField_keepKnown enumMemberSchema "name" (by decide),
      reqField_keepKnown enumMemberSchema "value" (by decide),
      optField_keepKnown enumMemberSchema "maybe_attributes" (by decide)]

theorem decodeEnum_keepKnown (fields : List (String × Json)) :
    decodeEnum (.obj (keepKnown enumSchema fields)) =
    decodeEnum (.obj fields) := by
  simp only [decodeEnum]
  rw [reqField_keepKnown enumSchema "name" (by decide),
      reqField_keepKnown enumSchema "type" (by decide),
      reqField_keepKnown enumSchema "members" (by decide),
      optField_keepKnown enumSchema "maybe_attributes" (by decide)]

theorem decodeStructMember_keepKnown (fields : List (String × Json)) :
    decodeStructMember (.obj (keepKnown structMemberSchema fields)) =
    decodeStructMember (.obj fields) := by
  simp only [decodeStructMember]
  rw [reqField_keepKnown structMemberSchema "name" (by decide),
      optField_keepKnown structMemberSchema "maybe_attributes" (by decide),
      reqField_keepKnown structMemberSchema "type" (by decide),
      reqField_keepKnown structMemberSchema "size" (by decide),
      reqField_keepKnown structMemberSchema "max_out_of_line" (by decide),
      reqField_keepKnown structMemberSchema "alignment" (by decide),
      reqField_keepKnown structMemberSchema "offset" (by decide),
      optField_keepKnown structMemberSchema "maybe_default_value" (by decide)]

theorem decodeProtocolMethod_keepKnown (fields : List (String × Json)) :
    decodeProtocolMethod (.obj (keepKnown protocolMethodSchema fields)) =
    decodeProtocolMethod (.obj fields) := by
  simp only [decodeProtocolMethod]
  rw [reqField_keepKnown protocolMethodSchema "name" (by decide),
      optField_keepKnown protocolMethodSchema "maybe_attributes" (by decide),
      reqField_keepKnown protocolMethodSchema "ordinal" (by decide),
      reqField_keepKnown protocolMethodSchema "generated_ordinal" (by decide),
      reqField_keepKnown protocolMethodSchema "has_request" (by decide),
      optField_keepKnown protocolMethodSchema "maybe_request" (by decide),
      optField_keepKnown protocolMethodSchema "maybe_request_size" (by decide),
      optField_keepKnown protocolMethodSchema "maybe_request_alignment"
        (by decide),
      reqField_keepKnown protocolMethodSchema "has_response" (by decide),
      optField_keepKnown protocolMethodSchema "maybe_response" (by decide),
      optField_keepKnown protocolMethodSchema "maybe_response_size" (by decide),
      optField_keepKnown protocolMethodSchema "maybe_response_alignment"
        (by decide)]

theorem decodeProtocol_keepKnown (fields : List (String × Json)) :
    decodeProtocol (.obj (keepKnown protocolSchema fields)) =
    decodeProtocol (.obj fields) := by
  simp only [decodeProtocol]
  rw [reqField_keepKnown protocolSchema "name" (by decide),
      optField_keepKnown protocolSchema "maybe_attributes" (by decide),
      reqField_keepKnown protocolSchema "methods" (by decide)]

theorem decodeStruct_keepKnown (fields : List (String × Json)) :
    decodeStruct (.obj (keepKnown structSchema fields)) =
    decodeStruct (.obj fields) := by
  simp only [decodeStruct]
  rw [reqField_keepKnown structSchema "name" (by decide),
      optField_keepKnown structSchema "maybe_attributes" (by decide),
      reqField_keepKnown structSchema "members" (by decide),
      reqField_keepKnown structSchema "size" (by decide),
      reqField_keepKnown structSchema "max_out_of_line" (by decide),
      optField_keepKnown structSchema "max_handles" (by decide),
      optField_keepKnown structSchema "anonymous" (by decide)]

theorem decodeTable_keepKnown (fields : List (String × Json)) :
    decodeTable (.obj (keepKnown tableSchema fields)) =
    decodeTable (.obj fields) := by
  simp only [decodeTable]
  rw [reqField_keepKnown tableSchema "name" (by decide),
      optField_keepKnown tableSchema "maybe_attributes" (by decide),
      reqField_keepKnown tableSchema "members" (by decide),
      reqField_keepKnown tableSchema "size" (by decide),
      reqField_keepKnown tableSchema "max_out_of_line" (by decide)]

theorem decodeUnionMember_keepKnown (fields : List (String × Json)) :
    decodeUnionMember (.obj (keepKnown unionMemberSchema fields)) =
    decodeUnionMember (.obj fields) := by
  simp only [decodeUnionMember]
  rw [reqField_keepKnown unionMemberSchema "name" (by decide),
      optField_keepKnown unionMemberSchema "maybe_attributes" (by decide),
      reqField_keepKnown unionMemberSchema "type" (by decide),
      reqField_keepKnown unionMemberSchema "size" (by decide),
      reqField_keepKnown unionMemberSchema "max_out_of_line" (by decide),
      reqField_keepKnown unionMemberSchema "alignment" (by decide),
      reqField_keepKnown unionMemberSchema "offset" (by decide)]

theorem decodeUnion_keepKnown (fields : List (String × Json)) :
    decodeUnion (.obj (keepKnown unionSchema fields)) =
    decodeUnion (.obj fields) := by
  simp only [decodeUnion]
  rw [reqField_keepKnown unionSchema "name" (by decide),
      optField_keepKnown unionSchema "maybe_attributes" (by decide),
      reqField_keepKnown unionSchema "members" (by decide),
      reqField_keepKnown unionSchema "size" (by decide),
      reqField_keepKnown unionSchema "alignment" (by decide),
      reqField_keepKnown unionSchema "max_out_of_line" (by decide),
      optField_keepKnown unionSchema "max_handles" (by decide)]

theorem decodeDeclaration_keepKnown (fields : List (String × Json)) :
    decodeDeclaration (.obj (keepKnown declarationSchema fields)) =
    decodeDeclaration (.obj fields) := by
  simp only [decodeDeclaration]
  rw [reqField_keepKnown declarationSchema "name" (by decide),
      optField_keepKnown declarationSchema "maybe_attributes" (by decide)]

theorem decodeLibraryDependency_keepKnown (fields : List (String × Json)) :
    decodeLibraryDependency (.obj (keepKnown libraryDependencySchema fields)) =
    decodeLibraryDependency (.obj fields) := by
  simp only [decodeLibraryDependency]
  rw [reqField_keepKnown libraryDependencySchema "name" (by decide),
      reqField_keepKnown libraryDependencySchema "declarations" (by decide)]

theorem getField_setField_same (fields : List (String × Json)) (name : String)
    (v : Json) : getField (setField fields name v) name = some v := by
  induction fields with
  | nil => simp [setField, getField]
  | cons p rest ih =>
    obtain ⟨k, w⟩ := p
    by_cases hk : k = name
    · simp [setField, getField, hk]
    · simp [setField, getField, hk, ih]

theorem getField_setField_other (fields : List (String × Json)) (name : String)
    (v : Json) (m : String) (hne : ¬ m = name) :
    getField (setField fields name v) m = getField fields m := by
  have hne2 : ¬ name = m := fun h => hne h.symm
  induction fields with
  | nil => simp [setField, getField, hne2]
  | cons p rest ih =>
    obtain ⟨k, w⟩ := p
    by_cases hk : k = name
    · subst hk
      simp [setField, getField, hne2]
    · by_cases hm : k = m
      · simp [setField, getField, hk, hm, hne]
      · simp [setField, getField, hk, hm, ih]

theorem reqField_setField_other (fields : List (String × Json)) (name : String)
    (v : Json) (m : String) (hne : ¬ m = name)
    (d : Json → Except DecodeError α) :
    reqField (setField fields name v) m d = reqField fields m d := by
  unfold reqField
  rw [getField_setField_other fields name v m hne]

theorem reqField_setField_same (fields : List (String × Json)) (name : String)
    (v : Json) (d : Json → Except DecodeError α) :
    reqField (setField fields name v) name d = d v := by
  unfold reqField
  rw [getField_setField_same fields name v]

theorem optField_setField_other (fields : List (String × Json)) (name : String)
    (v : Json) (m : String) (hne : ¬ m = name)
    (d : Json → Except DecodeError α) :
    optField (setField fields name v) m d = optField fields m d := by
  unfold optField
  rw [getField_setField_other fields name v m hne]

theorem except_bind_ok {α β : Type} {e : Except DecodeError α}
    {f : α → Except DecodeError β} {c : β} (h : (e >>= f) = .ok c) :
    ∃ b, e = .ok b ∧ f b = .ok c := by
  cases e with
  | error msg => simp [Bind.bind, Except.bind] at h
  | ok b =>
    refine ⟨b, rfl, ?_⟩
    simpa [Bind.bind, Except.bind] using h

theorem except_map_ok {α β : Type} {e : Except DecodeError α} {g : α → β}
    {c : β} (h : (g <$> e) = .ok c) : ∃ b, e = .ok b ∧ g b = c := by
  cases e with
  | error msg => simp [Functor.map, Except.map] at h
  | ok b =>
    refine ⟨b, rfl, ?_⟩
    simpa [Functor.map, Except.map] using h

/-- Replacing the declaration_order field of any successfully decoding
library document by an arbitrary string array still decodes, and merely
stores the new array: the field is not validated against anything
else. -/
theorem decodeLibrary_setOrder (fields : List (String × Json)) (lib : Library)
    (ss : List String) (ht : decodeLibrary (.obj fields) = .ok lib) :
    decodeLibrary (.obj (setField fields "declaration_order"
      (.arr (ss.map .str)))) = .ok { lib with declaration_order := ss } := by
  simp only [decodeLibrary] at ht ⊢
  rw [reqField_setField_other fields "declaration_order" (.arr (ss.map .str))
        "version" (by decide),
      reqField_setField_other fields "declaration_order" (.arr (ss.map .str))
        "name" (by decide),
      reqField_setField_other fields "declaration_order" (.arr (ss.map .str))
        "const_declarations" (by decide),
      reqField_setField_other fields "declaration_order" (.arr (ss.map .str))
        "enum_declarations" (by decide),
      reqField_setField_other fields "declaration_order" (.arr (ss.map .str))
        "interface_declarations" (by decide),
      reqField_setField_other fields "declaration_order" (.arr (ss.map .str))
        "struct_declarations" (by decide),
      reqField_setField_other fields "declaration_order" (.arr (ss.map .str))
        "table_declarations" (by decide),
      reqField_setField_other fields "declaration_order" (.arr (ss.map .str))
        "union_declarations" (by decide),
      reqField_setField_other fields "declaration_order" (.arr (ss.map .str))
        "xunion_declarations" (by decide),
      reqField_setField_same fields "declaration_order" (.arr (ss.map .str)),
      reqField_setField_other fields "declaration_order" (.arr (ss.map .str))
        "declarations" (by decide),
      reqField_setField_other fields "declaration_order" (.arr (ss.map .str))
        "library_dependencies" (by decide)]
  obtain ⟨version, h1, ht⟩ := except_bind_ok ht
  obtain ⟨name2, h2, ht⟩ := except_bind_ok ht
  obtain ⟨cds, h3, ht⟩ := except_bind_ok ht
  obtain ⟨eds, h4, ht⟩ := except_bind_ok ht
  obtain ⟨ids, h5, ht⟩ := except_bind_ok ht
  obtain ⟨sds, h6, ht⟩ := except_bind_ok ht
  obtain ⟨tds, h7, ht⟩ := except_bind_ok ht
  obtain ⟨uds, h8, ht⟩ := except_bind_ok ht
  obtain ⟨xds, h9, ht⟩ := except_bind_ok ht
  obtain ⟨ord, h10, ht⟩ := except_bind_ok ht
  obtain ⟨decls, h11, ht⟩ := except_bind_ok ht
  obtain ⟨deps, h12, ht⟩ := except_bind_ok ht
  simp only [pure, Except.pure, Except.ok.injEq] at ht
  rw [h1, h2, h3, h4, h5, h6, h7, h8, h9, h11, h12]
  simp only [decodeList, mapM_decodeString, Bind.bind, Except.bind, pure,
             Except.pure]
  rw [← ht]

/-- Replacing the ordinal field of any successfully decoding table
member document by an arbitrary u64, zero included, still decodes and
merely stores the new ordinal: no range or uniqueness constraint is
applied. -/
theorem decodeTableMember_setOrdinal (fields : List (String × Json))
    (m : TableMember) (n : Nat)
    (ht : decodeTableMember (.obj fields) = .ok m)
    (hn : n < 18446744073709551616) :
    decodeTableMember (.obj (setField fields "ordinal" (.num n))) =
      .ok { m with ordinal := n } := by
  simp only [decodeTableMember] at ht ⊢
  rw [reqField_setField_other fields "ordinal" (.num n) "reserved" (by decide),
      reqField_setField_same fields "ordinal" (.num n),
      optField_setField_other fields "ordinal" (.num n) "name" (by decide),
      optField_setField_other fields "ordinal" (.num n) "type" (by decide),
      optField_setField_other fields "ordinal" (.num n) "size" (by decide),
      optField_setField_other fields "ordinal" (.num n) "max_out_of_line"
        (by decide),
      optField_setField_other fields "ordinal" (.num n) "alignment" (by decide),
      optField_setField_other fields "ordinal" (.num n) "offset" (by decide),
      optField_setField_other fields "ordinal" (.num n) "maybe_default_value"
        (by decide)]
  obtain ⟨reserved, h1, ht⟩ := except_bind_ok ht
  obtain ⟨ordinal, h2, ht⟩ := except_bind_ok ht
  obtain ⟨mname, h3, ht⟩ := except_bind_ok ht
  obtain ⟨ty, h4, ht⟩ := except_bind_ok ht
  obtain ⟨size, h5, ht⟩ := except_bind_ok ht
  obtain ⟨mool, h6, ht⟩ := except_bind_ok ht
  obtain ⟨alignment, h7, ht⟩ := except_bind_ok ht
  obtain ⟨offset, h8, ht⟩ := except_bind_ok ht
  obtain ⟨dflt, h9, ht⟩ := except_map_ok ht
  have hdec : decodeU64 (.num n) = .ok n := by
    have h64 : (0:Int) ≤ (n:Int) ∧ (n:Int) < 18446744073709551616 :=
      ⟨by exact_mod_cast Nat.zero_le n, by exact_mod_cast hn⟩
    simp [decodeU64, h64]
  rw [h1, h3, h4, h5, h6, h7, h8, h9, hdec]
  simp only [Bind.bind, Except.bind, Functor.map, Except.map, pure, Except.pure]
  rw [← ht]

/-- Replacing the has_request and has_response flags of any successfully
decoding method document by arbitrary booleans still decodes and merely
stores the new flags: the two are not checked against each other. -/
theorem decodeProtocolMethod_setFlags (fields : List (String × Json))
    (m : ProtocolMethod) (b1 b2 : Bool)
    (ht : decodeProtocolMethod (.obj fields) = .ok m) :
    decodeProtocolMethod (.obj (setField (setField fields "has_request"
        (.bool b1)) "has_response" (.bool b2))) =
      .ok { m with has_request := b1, has_response := b2 } := by
  simp only [decodeProtocolMethod] at ht ⊢
  rw [reqField_setField_other (setField fields "has_request" (.bool b1))
        "has_response" (.bool b2) "name" (by decide),
      optField_setField_other (setField fields "has_request" (.bool b1))
        "has_response" (.bool b2) "maybe_attributes" (by decide),
      reqField_setField_other (setField fields "has_request" (.bool b1))
        "has_response" (.bool b2) "ordinal" (by decide),
      reqField_setField_other (setField fields "has_request" (.bool b1))
        "has_response" (.bool b2) "generated_ordinal" (by decide),
      reqField_setField_other (setField fields "has_request" (.bool b1))
        "has_response" (.bool b2) "has_request" (by decide),
      optField_setField_other (setField fields "has_request" (.bool b1))
        "has_response" (.bool b2) "maybe_request" (by decide),
      optField_setField_other (setField fields "has_request" (.bool b1))
        "has_response" (.bool b2) "maybe_request_size" (by decide),
      optField_setField_other (setField fields "has_request" (.bool b1))
        "has_response" (.bool b2) "maybe_request_alignment" (by decide),
      reqField_setField_same (setField fields "has_request" (.bool b1))
        "has_response" (.bool b2),
      optField_setField_other (setField fields "has_request" (.bool b1))
        "has_response" (.bool b2) "maybe_response" (by decide),
      optField_setField_other (setField fields "has_request" (.bool b1))
        "has_response" (.bool b2) "maybe_response_size" (by decide),
      optField_setField_other (setField fields "has_request" (.bool b1))
        "has_response" (.bool b2) "maybe_response_alignment" (by decide),
      reqField_setField_other fields "has_request" (.bool b1) "name" (by decide),
      optField_setField_other fields "has_request" (.bool b1) "maybe_attributes"
        (by decide),
      reqField_setField_other fields "has_request" (.bool b1) "ordinal"
        (by decide),
      reqField_setField_other fields "has_request" (.bool b1)
        "generated_ordinal" (by decide),
      reqField_setField_same fields "has_request" (.bool b1),
      optField_setField_other fields "has_request" (.bool b1) "maybe_request"
        (by decide),
      optField_setField_other fields "has_request" (.bool b1)
        "maybe_request_size" (by decide),
      optField_setField_other fields "has_request" (.bool b1)
        "maybe_request_alignment" (by decide),
      optField_setField_other fields "has_request" (.bool b1) "maybe_response"
        (by decide),
      optField_setField_other fields "has_request" (.bool b1)
        "maybe_response_size" (by decide),
      optField_setField_other fields "has_request" (.bool b1)
        "maybe_response_alignment" (by decide)]
  obtain ⟨name2, h1, ht⟩ := except_bind_ok ht
  obtain ⟨attrs, h2, ht⟩ := except_bind_ok ht
  obtain ⟨ordinal, h3, ht⟩ := except_bind_ok ht
  obtain ⟨gord, h4, ht⟩ := except_bind_ok ht
  obtain ⟨hreq, h5, ht⟩ := except_bind_ok ht
  obtain ⟨mreq, h6, ht⟩ := except_bind_ok ht
  obtain ⟨mreqs, h7, ht⟩ := except_bind_ok ht
  obtain ⟨mreqa, h8, ht⟩ := except_bind_ok ht
  obtain ⟨hresp, h9, ht⟩ := except_bind_ok ht
  obtain ⟨mresp, h10, ht⟩ := except_bind_ok ht
  obtain ⟨mresps, h11, ht⟩ := except_bind_ok ht
  obtain ⟨mrespa, h12, ht⟩ := except_map_ok ht
  rw [h1, h2, h3, h4, h6, h7, h8, h10, h11, h12]
  simp only [decodeBool, Bind.bind, Except.bind, Functor.map, Except.map,
             pure, Except.pure]
  rw [← ht]

theorem resolveDeps_hit (pre : List LibraryDependency) (dep : LibraryDependency)
    (post : List LibraryDependency) (name : String) (k : DeclarationType)
    (hpre : ∀ d ∈ pre, lookupKind d.declarations name = none)
    (hdep : lookupKind dep.declarations name = some k) :
    resolveDeps (pre ++ dep :: post) name = .foreignRef k := by
  induction pre with
  | nil => simp [resolveDeps, hdep]
  | cons p rest ih =>
    have hp : lookupKind p.declarations name = none := hpre p (by simp)
    simp only [List.cons_append, resolveDeps, hp]
    exact ih (fun d hd => hpre d (by simp [hd]))

theorem resolveDeps_shape (deps : List LibraryDependency) (name : String) :
    resolveDeps deps name = .notFound ∨
    ∃ k, resolveDeps deps name = .foreignRef k := by
  induction deps with
  | nil => exact .inl rfl
  | cons dep rest ih =>
    cases hk : lookupKind dep.declarations name with
    | none => simpa [resolveDeps, hk] using ih
    | some k => exact .inr ⟨k, by simp [resolveDeps, hk]⟩

theorem resolveDeps_miss (deps : List LibraryDependency) (name : String)
    (h : ∀ dep ∈ deps, lookupKind dep.declarations name = none) :
    resolveDeps deps name = .notFound := by
  induction deps with
  | nil => rfl
  | cons dep rest ih =>
    have hd : lookupKind dep.declarations name = none := h dep (by simp)
    simp only [resolveDeps, hd]
    exact ih (fun d hmem => h d (by simp [hmem]))

/-! Claim theorems. -/

/-- C1 counterexample: the claim that read_ir never panics is false; on
an unobtainable file read_ir panics (the source unwraps File::open with
expect). -/
theorem C1_read_ir_panics_cex :
    ¬ ∀ fi : FileInput, (read_ir fi).isPanic = false := by
  intro h
  simpa [read_ir, ReadIrResult.isPanic] using h .missing

/-- C1 amended: a decode failure is never silently patched, but it is
surfaced as a panic rather than a typed result: read_ir panics with
message file not found on an unobtainable file and json error on a
malformed or undecodable document, and returns a Library exactly when
the serde decode succeeds, never a default value. -/
theorem C1_read_ir_failure_surfacing :
    (read_ir .missing = .panic "file not found") ∧
    (read_ir .malformed = .panic "json error") ∧
    (∀ j e, decodeLibrary j = .error e →
      read_ir (.parsed j) = .panic "json error") ∧
    (∀ j lib, read_ir (.parsed j) = .ok lib ↔ decodeLibrary j = .ok lib) := by
  refine ⟨rfl, rfl, ?_, ?_⟩
  · intro j e h
    simp [read_ir, h]
  · intro j lib
    constructor
    · intro h
      cases hd : decodeLibrary j with
      | error e =>
        exfalso
        simp [read_ir, hd] at h
      | ok l =>
        have hl : l = lib := by
          have h2 := h
          simp only [read_ir, hd] at h2
          exact ReadIrResult.ok.inj h2
        rw [hl]
    · intro h
      simp [read_ir, h]

/-- Witness for C1: the amended theorem applied to a concrete
undecodable document and to a concrete decodable one. -/
theorem C1_read_ir_failure_surfacing_witness :
    read_ir (.parsed .null) = .panic "json error" ∧
    read_ir (.parsed (mkLibDoc [] [] [] [])) = .ok (mkLib [] [] [] []) :=
  ⟨C1_read_ir_failure_surfacing.2.2.1 .null "invalid type: expected a map" rfl,
   (C1_read_ir_failure_surfacing.2.2.2 (mkLibDoc [] [] [] [])
     (mkLib [] [] [] [])).mpr rfl⟩

/-- C2 counterexample: a document whose declaration_order holds an entry
with no matching declaration decodes successfully instead of failing
with DanglingOrderEntry, and the decoded declaration_order length
differs from the count of locally declared names. -/
theorem C2_declaration_order_unchecked_cex :
    decodeLibrary (mkLibDoc [] [] [] ["bogus"]) =
      .ok (mkLib [] [] [] ["bogus"]) ∧
    (mkLib [] [] [] ["bogus"]).declaration_order.length ≠
      (mkLib [] [] [] ["bogus"]).localDeclCount :=
  ⟨rfl, by decide⟩

/-- C2 amended: decode performs no consistency validation of
declaration_order against the declared names; in any successfully
decoding document the field can be replaced by an arbitrary string
array and the result still decodes with that array stored as-is, any
string array is accepted over an empty library (dangling entries
included), and a library declaring a name decodes with an empty order
(missing entries included), so no DuplicateDeclaration,
DanglingOrderEntry or MissingOrderEntry failures exist and the length
equality can fail. -/
theorem C2_declaration_order_passthrough :
    (∀ fields lib ss, decodeLibrary (.obj fields) = .ok lib →
      decodeLibrary (.obj (setField fields "declaration_order"
        (.arr (ss.map .str)))) = .ok { lib with declaration_order := ss }) ∧
    (∀ ss : List String,
      decodeLibrary (mkLibDoc [] [] [] ss) = .ok (mkLib [] [] [] ss)) ∧
    decodeLibrary (mkLibDoc [] [] [xunionDoc] []) =
      .ok (mkLib [] [] [xunionDecl] []) :=
  ⟨decodeLibrary_setOrder, decodeLibrary_mkLibDoc_empty, rfl⟩

/-- Witness for C2: the amended theorem applied to the concrete library
declaring test/X, replacing its declaration_order with the dangling
array containing bogus. -/
theorem C2_declaration_order_passthrough_witness :
    decodeLibrary (.obj (setField (mkLibFields [] [] [xunionDoc] ["test/X"])
        "declaration_order" (.arr (["bogus"].map .str)))) =
      .ok { mkLib [] [] [xunionDecl] ["test/X"] with
            declaration_order := ["bogus"] } :=
  C2_declaration_order_passthrough.1 (mkLibFields [] [] [xunionDoc] ["test/X"])
    (mkLib [] [] [xunionDecl] ["test/X"]) ["bogus"] rfl

/-- C3 counterexample: a table whose two members both carry ordinal 0
decodes successfully, so decoded tables need not have ordinal set 1..N
and decode does not reject zero or duplicate ordinals. -/
theorem C3_table_ordinals_unchecked_cex :
    decodeLibrary (mkLibDoc [] [dupOrdinalTableDoc] [] []) =
      .ok (mkLib [] [dupOrdinalTable] [] []) ∧
    specTableOrdinalsOk dupOrdinalTable = false ∧
    dupOrdinalTable.members.map TableMember.ordinal = [0, 0] :=
  ⟨rfl, by decide, by decide⟩

/-- C3 amended: the only check decode performs on a table member ordinal
is that it is an unsigned 64-bit integer; in any successfully decoding
member document the ordinal can be replaced by any such value, zero
included, and the result still decodes with the new ordinal stored
unchanged (duplicates are shown accepted by the counterexample). -/
theorem C3_table_ordinal_range_unchecked :
    (∀ fields m (n : Nat), decodeTableMember (.obj fields) = .ok m →
      n < 18446744073709551616 →
      decodeTableMember (.obj (setField fields "ordinal" (.num n))) =
        .ok { m with ordinal := n }) ∧
    (∀ n : Nat, n < 18446744073709551616 →
      decodeTableMember (.obj [("reserved", .bool true), ("ordinal", .num n)]) =
      .ok { reserved := true, ordinal := n, name := none, type := none,
            size := none, max_out_of_line := none, alignment := none,
            offset := none, maybe_default_value := none }) := by
  constructor
  · exact decodeTableMember_setOrdinal
  · intro n hn
    have h64 : (0:Int) ≤ (n:Int) ∧ (n:Int) < 18446744073709551616 := by
      refine ⟨by exact_mod_cast Nat.zero_le n, by exact_mod_cast hn⟩
    simp [decodeTableMember, getField, reqField, optField, decodeBool,
          decodeU64, h64, Except.instMonad, Except.bind, Except.map,
          Except.pure]

/-- Witness for C3: the amended theorem applied at ordinal 0, the value
the spec says must be rejected, both directly and by replacing the
ordinal 7 of a decodable member document. -/
theorem C3_table_ordinal_range_unchecked_witness :
    decodeTableMember (.obj (setField
        [("reserved", .bool true), ("ordinal", .num 7)] "ordinal" (.num 0))) =
      .ok { reserved := true, ordinal := 0, name := none, type := none,
            size := none, max_out_of_line := none, alignment := none,
            offset := none, maybe_default_value := none } ∧
    decodeTableMember (.obj [("reserved", .bool true), ("ordinal", .num 0)]) =
      .ok { reserved := true, ordinal := 0, name := none, type := none,
            size := none, max_out_of_line := none, alignment := none,
            offset := none, maybe_default_value := none } :=
  ⟨C3_table_ordinal_range_unchecked.1
     [("reserved", .bool true), ("ordinal", .num 7)]
     { reserved := true, ordinal := 7, name := none, type := none,
       size := none, max_out_of_line := none, alignment := none,
       offset := none, maybe_default_value := none } 0 rfl (by decide),
   C3_table_ordinal_range_unchecked.2 0 (by decide)⟩

/-- C4 counterexample: a protocol method with has_request and
has_response both false decodes successfully instead of failing with
EmptyMethod. -/
theorem C4_empty_method_accepted_cex :
    decodeLibrary (mkLibDoc [emptyMethodProtocolDoc] [] [] []) =
      .ok (mkLib [emptyMethodProtocol] [] [] []) ∧
    (emptyMethod.has_request || emptyMethod.has_response) = false :=
  ⟨rfl, rfl⟩

/-- C4 amended: decode imposes no relation between has_request and
has_response; in any successfully decoding method document the two
flags can be replaced by any booleans, both false included, and the
result still decodes with the new flags stored unchanged, so no
EmptyMethod failure exists. -/
theorem C4_method_flags_unchecked :
    (∀ fields m b1 b2, decodeProtocolMethod (.obj fields) = .ok m →
      decodeProtocolMethod (.obj (setField (setField fields "has_request"
          (.bool b1)) "has_response" (.bool b2))) =
        .ok { m with has_request := b1, has_response := b2 }) ∧
    (∀ hreq hresp : Bool,
      decodeProtocolMethod (methodDocFlags hreq hresp) =
        .ok (methodFlags hreq hresp)) := by
  constructor
  · exact decodeProtocolMethod_setFlags
  · intro hreq hresp
    cases hreq <;> cases hresp <;> rfl

/-- Witness for C4: the amended theorem applied to the concrete
two-way method document, turning both flags off. -/
theorem C4_method_flags_unchecked_witness :
    decodeProtocolMethod (.obj (setField (setField (methodFieldsFlags true true)
        "has_request" (.bool false)) "has_response" (.bool false))) =
      .ok { methodFlags true true with
            has_request := false, has_response := false } :=
  C4_method_flags_unchecked.1 (methodFieldsFlags true true)
    (methodFlags true true) false false rfl

/-- C5 (resolve modelled from the spec): lookup tries the local
declarations first and returns the full declaration on a local hit;
with no local hit it scans the dependencies in list order and a hit
returns the kind only (a foreignRef carries no member or layout data by
construction); a name in neither place is the typed notFound result. -/
theorem C5_resolve_two_tier :
    (∀ lib name d, findLocal lib name = some d →
      resolve lib name = .localRef d) ∧
    (∀ lib name pre dep post k, findLocal lib name = none →
      lib.library_dependencies = pre ++ dep :: post →
      (∀ d ∈ pre, lookupKind d.declarations name = none) →
      lookupKind dep.declarations name = some k →
      resolve lib name = .foreignRef k) ∧
    (∀ lib name, findLocal lib name = none →
      resolve lib name = .notFound ∨ ∃ k, resolve lib name = .foreignRef k) ∧
    (∀ lib name, findLocal lib name = none →
      (∀ dep ∈ lib.library_dependencies, lookupKind dep.declarations name = none) →
      resolve lib name = .notFound) := by
  refine ⟨?_, ?_, ?_, ?_⟩
  · intro lib name d h
    simp [resolve, h]
  · intro lib name pre dep post k hl hdeps hpre hdep
    simp only [resolve, hl, hdeps]
    exact resolveDeps_hit pre dep post name k hpre hdep
  · intro lib name hl
    simp only [resolve, hl]
    exact resolveDeps_shape lib.library_dependencies name
  · intro lib name hl hmiss
    simp only [resolve, hl]
    exact resolveDeps_miss lib.library_dependencies name hmiss

/-- Witness for C5: the theorem applied to the concrete library whose
only dependency declares other.lib/Foo as a table. -/
theorem C5_resolve_two_tier_witness :
    resolve depOnlyLib "other.lib/Foo" = .foreignRef .Table ∧
    resolve depOnlyLib "nowhere/Bar" = .notFound := by
  constructor
  · exact C5_resolve_two_tier.2.1 depOnlyLib "other.lib/Foo" []
      { name := "other.lib", declarations := [("other.lib/Foo", .Table)] } []
      .Table rfl rfl (by intro d hd; cases hd) rfl
  · refine C5_resolve_two_tier.2.2.2 depOnlyLib "nowhere/Bar" rfl ?_
    intro dep hd
    simp [depOnlyLib] at hd
    subst hd
    rfl

/-- C6 (walk_type modelled from the spec): on a Vector of an Array of a
Primitive the walk yields exactly the three nodes in preorder, each
paired with its enclosing type, and re-invocation on the same value
yields the same sequence. -/
theorem C6_walk_type_vector_array_primitive :
    ∀ (s : String) (cnt : Nat) (nb : Bool) (mec : Option Nat),
    walk_type (.Vector (.Array (.Primitive s) cnt) nb mec) =
      [(.Vector (.Array (.Primitive s) cnt) nb mec, none),
       (.Array (.Primitive s) cnt,
         some (.Vector (.Array (.Primitive s) cnt) nb mec)),
       (.Primitive s, some (.Array (.Primitive s) cnt))] ∧
    walk_type (.Vector (.Array (.Primitive s) cnt) nb mec) =
      walk_type (.Vector (.Array (.Primitive s) cnt) nb mec) := by
  intro s cnt nb mec
  exact ⟨rfl, rfl⟩

/-- C7: every variant set is closed.  A kind tag outside the closed tag
set of Type, Literal or Constant makes decoding fail with an unknown
variant error, as does a handle-subtype or declaration-kind token
outside its enumeration; and a successful decode of a tagged entity
implies its lower-cased kind field is a member of the closed set. -/
theorem C7_closed_variant_sets :
    (∀ fields s, getField fields "kind" = some (.str s) → s ∉ typeKinds →
      decodeType (.obj fields) = .error ("unknown variant " ++ s)) ∧
    (∀ fields s, getField fields "kind" = some (.str s) → s ∉ literalKinds →
      decodeLiteral (.obj fields) = .error ("unknown variant " ++ s)) ∧
    (∀ fields s, getField fields "kind" = some (.str s) → s ∉ constantKinds →
      decodeConstant (.obj fields) = .error ("unknown variant " ++ s)) ∧
    (∀ s, s ∉ handleSubtypeTokens →
      decodeHandleSubtype (.str s) = .error ("unknown variant " ++ s)) ∧
    (∀ s, s ∉ declarationTypeTokens →
      decodeDeclarationType (.str s) = .error ("unknown variant " ++ s)) ∧
    (∀ fields t, decodeType (.obj fields) = .ok t →
      ∃ s, getField fields "kind" = some (.str s) ∧ s ∈ typeKinds) ∧
    (∀ fields l, decodeLiteral (.obj fields) = .ok l →
      ∃ s, getField fields "kind" = some (.str s) ∧ s ∈ literalKinds) ∧
    (∀ fields c, decodeConstant (.obj fields) = .ok c →
      ∃ s, getField fields "kind" = some (.str s) ∧ s ∈ constantKinds) := by
  refine ⟨?_, ?_, ?_, ?_, ?_, ?_, ?_, ?_⟩
  · intro fields s hk hs
    simp only [typeKinds, List.mem_cons, List.not_mem_nil, or_false,
               not_or] at hs
    obtain ⟨h1, h2, h3, h4, h5, h6, h7⟩ := hs
    rw [decodeType.eq_def]
    simp [hk, h1, h2, h3, h4, h5, h6, h7]
  · intro fields s hk hs
    simp only [literalKinds, List.mem_cons, List.not_mem_nil, or_false,
               not_or] at hs
    obtain ⟨h1, h2, h3, h4, h5⟩ := hs
    simp [decodeLiteral, hk, h1, h2, h3, h4, h5]
  · intro fields s hk hs
    simp only [constantKinds, List.mem_cons, List.not_mem_nil, or_false,
               not_or] at hs
    obtain ⟨h1, h2⟩ := hs
    simp [decodeConstant, hk, h1, h2]
  · intro s hs
    simp only [handleSubtypeTokens, List.mem_cons, List.not_mem_nil, or_false,
               not_or] at hs
    unfold decodeHandleSubtype
    split <;> simp_all
  · intro s hs
    simp only [declarationTypeTokens, List.mem_cons, List.not_mem_nil, or_false,
               not_or] at hs
    unfold decodeDeclarationType
    split <;> simp_all
  · intro fields t ht
    rw [decodeType.eq_def] at ht
    simp only [] at ht
    cases hk : getField fields "kind" with
    | none => rw [hk] at ht; exact absurd ht (by simp)
    | some j =>
      rw [hk] at ht
      cases j with
      | str s =>
        refine ⟨s, rfl, ?_⟩
        by_cases h1 : s = "array"
        · simp [typeKinds, h1]
        by_cases h2 : s = "vector"
        · simp [typeKinds, h2]
        by_cases h3 : s = "string"
        · simp [typeKinds, h3]
        by_cases h4 : s = "handle"
        · simp [typeKinds, h4]
        by_cases h5 : s = "request"
        · simp [typeKinds, h5]
        by_cases h6 : s = "primitive"
        · simp [typeKinds, h6]
        by_cases h7 : s = "identifier"
        · simp [typeKinds, h7]
        simp [h1, h2, h3, h4, h5, h6, h7] at ht
      | null => exact absurd ht (by simp)
      | bool b => exact absurd ht (by simp)
      | num n => exact absurd ht (by simp)
      | arr xs => exact absurd ht (by simp)
      | obj fs => exact absurd ht (by simp)
  · intro fields l hl
    simp only [decodeLiteral] at hl
    cases hk : getField fields "kind" with
    | none => rw [hk] at hl; exact absurd hl (by simp)
    | some j =>
      rw [hk] at hl
      cases j with
      | str s =>
        refine ⟨s, rfl, ?_⟩
        by_cases h1 : s = "string"
        · simp [literalKinds, h1]
        by_cases h2 : s = "numeric"
        · simp [literalKinds, h2]
        by_cases h3 : s = "true"
        · simp [literalKinds, h3]
        by_cases h4 : s = "false"
        · simp [literalKinds, h4]
        by_cases h5 : s = "default"
        · simp [literalKinds, h5]
        simp [h1, h2, h3, h4, h5] at hl
      | null => exact absurd hl (by simp)
      | bool b => exact absurd hl (by simp)
      | num n => exact absurd hl (by simp)
      | arr xs => exact absurd hl (by simp)
      | obj fs => exact absurd hl (by simp)
  · intro fields c hc
    simp only [decodeConstant] at hc
    cases hk : getField fields "kind" with
    | none => rw [hk] at hc; exact absurd hc (by simp)
    | some j =>
      rw [hk] at hc
      cases j with
      | str s =>
        refine ⟨s, rfl, ?_⟩
        by_cases h1 : s = "identifier"
        · simp [constantKinds, h1]
        by_cases h2 : s = "literal"
        · simp [constantKinds, h2]
        simp [h1, h2] at hc
      | null => exact absurd hc (by simp)
      | bool b => exact absurd hc (by simp)
      | num n => exact absurd hc (by simp)
      | arr xs => exact absurd hc (by simp)
      | obj fs => exact absurd hc (by simp)

/-- Witness for C7: the theorem applied to the unknown tag frobnicate
for every variant set and to concrete successful decodes of each tagged
entity. -/
theorem C7_closed_variant_sets_witness :
    decodeType (.obj [("kind", .str "frobnicate")]) =
      .error ("unknown variant " ++ "frobnicate") ∧
    decodeLiteral (.obj [("kind", .str "frobnicate")]) =
      .error ("unknown variant " ++ "frobnicate") ∧
    decodeConstant (.obj [("kind", .str "frobnicate")]) =
      .error ("unknown variant " ++ "frobnicate") ∧
    decodeHandleSubtype (.str "frobnicate") =
      .error ("unknown variant " ++ "frobnicate") ∧
    decodeDeclarationType (.str "frobnicate") =
      .error ("unknown variant " ++ "frobnicate") ∧
    (∃ s, getField [("kind", Json.str "primitive"), ("subtype", Json.str "uint8")]
        "kind" = some (.str s) ∧ s ∈ typeKinds) ∧
    (∃ s, getField [("kind", Json.str "true")] "kind" = some (.str s) ∧
      s ∈ literalKinds) ∧
    (∃ s, getField [("kind", Json.str "identifier"), ("identifier", Json.str "x")]
        "kind" = some (.str s) ∧ s ∈ constantKinds) := by
  refine ⟨C7_closed_variant_sets.1 _ "frobnicate" rfl (by decide),
          C7_closed_variant_sets.2.1 _ "frobnicate" rfl (by decide),
          C7_closed_variant_sets.2.2.1 _ "frobnicate" rfl (by decide),
          C7_closed_variant_sets.2.2.2.1 "frobnicate" (by decide),
          C7_closed_variant_sets.2.2.2.2.1 "frobnicate" (by decide),
          C7_closed_variant_sets.2.2.2.2.2.1 _ (.Primitive "uint8") ?_,
          C7_closed_variant_sets.2.2.2.2.2.2.1 _ .True rfl,
          C7_closed_variant_sets.2.2.2.2.2.2.2 _ (.Identifier "x") rfl⟩
  simp [decodeType, getField, reqField, decodeString]

/-- C8: the spec scenario document, a table with one present member of
primitive uint8 type and one reserved member, decodes successfully into
a table with exactly two members whose second has no name and no
type. -/
theorem C8_reserved_table_member_scenario :
    decodeLibrary (mkLibDoc [] [scenarioTableDoc] [] []) =
      .ok (mkLib [] [scenarioTable] [] []) ∧
    scenarioTable.members.length = 2 ∧
    scenarioMember2.name = none ∧ scenarioMember2.type = none := by
  refine ⟨?_, rfl, rfl, rfl⟩
  simp [mkLibDoc, mkLib, scenarioTableDoc, scenarioTable, scenarioMember1,
        scenarioMember2, decodeLibrary, decodeTable, decodeTableMember,
        decodeType, getField, reqField, optField, decodeBool, decodeU64,
        decodeU32, decodeString, decodeList, List.mapM, List.mapM.loop,
        Except.map, Except.instMonad, Except.bind, Except.pure,
        decodeDeclMap, decodeDeclMapFields]

/-- C9: unknown fields are ignored, not rejected: for every object
decoder of the schema (the top-level library, every declaration shape,
every member shape, and the Type, Literal and Constant tagged
variants), decoding a document object equals decoding its restriction
to the schema-named fields, so extra fields never change the result. -/
theorem C9_unknown_fields_ignored :
    (∀ fields, decodeLibrary (.obj fields) =
      decodeLibrary (.obj (keepKnown librarySchema fields))) ∧
    (∀ fields, decodeTableMember (.obj fields) =
      decodeTableMember (.obj (keepKnown tableMemberSchema fields))) ∧
    (∀ fields, decodeType (.obj fields) =
      decodeType (.obj (keepKnown typeSchema fields))) ∧
    (∀ fields, decodeLiteral (.obj fields) =
      decodeLiteral (.obj (keepKnown literalSchema fields))) ∧
    (∀ fields, decodeConstant (.obj fields) =
      decodeConstant (.obj (keepKnown constantSchema fields))) ∧
    (∀ fields, decodeAttribute (.obj fields) =
      decodeAttribute (.obj (keepKnown attributeSchema fields))) ∧
    (∀ fields, decodeConst (.obj fields) =
      decodeConst (.obj (keepKnown constSchema fields))) ∧
    (∀ fields, decodeEnumMember (.obj fields) =
      decodeEnumMember (.obj (keepKnown enumMemberSchema fields))) ∧
    (∀ fields, decodeEnum (.obj fields) =
      decodeEnum (.obj (keepKnown enumSchema fields))) ∧
    (∀ fields, decodeStructMember (.obj fields) =
      decodeStructMember (.obj (keepKnown structMemberSchema fields))) ∧
    (∀ fields, decodeProtocolMethod (.obj fields) =
      decodeProtocolMethod (.obj (keepKnown protocolMethodSchema fields))) ∧
    (∀ fields, decodeProtocol (.obj fields) =
      decodeProtocol (.obj (keepKnown protocolSchema fields))) ∧
    (∀ fields, decodeStruct (.obj fields) =
      decodeStruct (.obj (keepKnown structSchema fields))) ∧
    (∀ fields, decodeTable (.obj fields) =
      decodeTable (.obj (keepKnown tableSchema fields))) ∧
    (∀ fields, decodeUnionMember (.obj fields) =
      decodeUnionMember (.obj (keepKnown unionMemberSchema fields))) ∧
    (∀ fields, decodeUnion (.obj fields) =
      decodeUnion (.obj (keepKnown unionSchema fields))) ∧
    (∀ fields, decodeDeclaration (.obj fields) =
      decodeDeclaration (.obj (keepKnown declarationSchema fields))) ∧
    (∀ fields, decodeLibraryDependency (.obj fields) =
      decodeLibraryDependency (.obj (keepKnown libraryDependencySchema fields))) :=
  ⟨fun fields => (decodeLibrary_keepKnown fields).symm,
   fun fields => (decodeTableMember_keepKnown fields).symm,
   fun fields => (decodeType_keepKnown fields).symm,
   fun fields => (decodeLiteral_keepKnown fields).symm,
   fun fields => (decodeConstant_keepKnown fields).symm,
   fun fields => (decodeAttribute_keepKnown fields).symm,
   fun fields => (decodeConst_keepKnown fields).symm,
   fun fields => (decodeEnumMember_keepKnown fields).symm,
   fun fields => (decodeEnum_keepKnown fields).symm,
   fun fields => (decodeStructMember_keepKnown fields).symm,
   fun fields => (decodeProtocolMethod_keepKnown fields).symm,
   fun fields => (decodeProtocol_keepKnown fields).symm,
   fun fields => (decodeStruct_keepKnown fields).symm,
   fun fields => (decodeTable_keepKnown fields).symm,
   fun fields => (decodeUnionMember_keepKnown fields).symm,
   fun fields => (decodeUnion_keepKnown fields).symm,
   fun fields => (decodeDeclaration_keepKnown fields).symm,
   fun fields => (decodeLibraryDependency_keepKnown fields).symm⟩

/-- C10: decoding is deterministic; decode and read_ir are pure
functions of the parsed document, so equal documents yield equal typed
errors or structurally equal Library values. -/
theorem C10_decode_deterministic : ∀ d1 d2 : Json, d1 = d2 →
    decodeLibrary d1 = decodeLibrary d2 ∧
    read_ir (.parsed d1) = read_ir (.parsed d2) := by
  intro d1 d2 h
  subst h
  exact ⟨rfl, rfl⟩

/-- Witness for C10: the theorem applied to the concrete minimal
document. -/
theorem C10_decode_deterministic_witness :
    decodeLibrary (mkLibDoc [] [] [] []) = decodeLibrary (mkLibDoc [] [] [] []) ∧
    read_ir (.parsed (mkLibDoc [] [] [] [])) =
      read_ir (.parsed (mkLibDoc [] [] [] [])) :=
  C10_decode_deterministic (mkLibDoc [] [] [] []) (mkLibDoc [] [] [] []) rfl

end ir
